import Mathlib

/-!
Verification development for the `youtube_comment_downloader` package.

The Python sources are embedded shallowly:
* `J` models decoded JSON documents (Python dicts, lists and scalars; every
  scalar is carried as its string payload, which is all the code inspects).
* `search_dict` embeds `utils.search_dict` (explicit work-stack traversal).
* `ajax_request` embeds `downloader.YoutubeCommentDownloader.ajax_request`,
  parameterised by a transport assigning an outcome to every attempt index.
* `resolveSort`, `bootstrapResolve`, `processResponse` and `crawlLoop` embed
  the phases of `downloader.YoutubeCommentDownloader.get_comments_from_url`.
Failures that Python signals by raising are modelled with `Except Err`.
-/

namespace Ycd

/-- A decoded JSON document: Python dicts (`obj`, ordered association lists),
lists (`arr`) and scalars (`atom`, carrying the scalar's text). -/
inductive J where
  | atom (s : String)
  | obj (entries : List (String × J))
  | arr (elems : List J)
deriving Repr

/-- Python exception kinds raised by the embedded code. -/
inductive Err where
  | config   -- CommentDownloadError("Unable to extract YouTube configuration")
  | disabled -- CommentsDisabledError
  | sorting  -- SortingError
  | api      -- YouTubeApiError
  | key      -- KeyError
  | attr     -- AttributeError
  | stop     -- StopIteration from next() without default
  | typ      -- TypeError (unhashable dict key, etc.)
  | idx      -- IndexError
deriving DecidableEq, Repr

/-- Python truthiness of a JSON value: empty dict, empty list and empty
string are falsy. -/
def pyFalsyJ : J → Bool
  | .atom s => s = ""
  | .obj es => es.isEmpty
  | .arr xs => xs.isEmpty

/-- Values of the entries of `es` whose key equals `key`, in iteration
order: the values `search_dict` yields while scanning one dict. -/
def dictYields (key : String) (es : List (String × J)) : List J :=
  es.filterMap (fun e => if e.1 = key then some e.2 else none)

/-- Values of the entries of `es` whose key differs from `key`, reversed:
scanning one dict appends these values to the Python work stack in
iteration order, so the last one appended is popped first.  Our stack is a
Lean list whose head is the next element to pop. -/
def dictPushes (key : String) (es : List (String × J)) : List J :=
  (es.filterMap (fun e => if e.1 = key then none else some e.2)).reverse

theorem sum_map_sizeOf_le (l : List J) : (l.map sizeOf).sum ≤ sizeOf l := by
  induction l with
  | nil => simp
  | cons a l ih => simp only [List.map_cons, List.sum_cons, List.cons.sizeOf_spec]; omega

theorem sum_map_sizeOf_dictPushes_lt (key : String) (es : List (String × J)) :
    ((dictPushes key es).map sizeOf).sum < sizeOf (J.obj es) := by
  have h : ∀ es' : List (String × J),
      ((es'.filterMap (fun e => if e.1 = key then none else some e.2)).map sizeOf).sum
        ≤ sizeOf es' := by
    intro es'
    induction es' with
    | nil => simp
    | cons a l ih =>
      by_cases h : a.1 = key
      · rw [List.filterMap_cons_none (by simp [h])]
        simp only [List.cons.sizeOf_spec]
        omega
      · rw [List.filterMap_cons_some (b := a.2) (by simp [h])]
        simp only [List.map_cons, List.sum_cons, List.cons.sizeOf_spec]
        have : sizeOf a.2 ≤ sizeOf a := by
          obtain ⟨x, y⟩ := a; simp only [Prod.mk.sizeOf_spec]; omega
        omega
  have h2 := h es
  simp only [dictPushes, List.map_reverse, List.sum_reverse, J.obj.sizeOf_spec]
  omega

/-- The work-stack loop of `utils.search_dict`.  The Lean list's head is
the top of the Python stack (which pops from its back): a dict yields the
values of matching entries in iteration order, then pushes all other
entries' values (last pushed popped first); a list pushes all elements
(last popped first); scalars are dropped. -/
def searchStack (key : String) : List J → List J
  | [] => []
  | .atom _ :: rest => searchStack key rest
  | .obj es :: rest => dictYields key es ++ searchStack key (dictPushes key es ++ rest)
  | .arr xs :: rest => searchStack key (xs.reverse ++ rest)
termination_by stack => (stack.map sizeOf).sum
decreasing_by
  · simp only [List.map_cons, List.sum_cons, J.atom.sizeOf_spec]
    omega
  · have h1 := sum_map_sizeOf_dictPushes_lt key es
    simp only [List.map_append, List.sum_append, List.map_cons, List.sum_cons]
    omega
  · have h1 := sum_map_sizeOf_le xs
    simp only [List.map_append, List.sum_append, List.map_cons, List.sum_cons,
      List.map_reverse, List.sum_reverse, J.arr.sizeOf_spec]
    omega

/-- The loop `searchStack` with explicit structural fuel: identical case for case,
except that it also counts down a `Nat`.  `searchStackN_eq` shows it
agrees with `searchStack` whenever the fuel is at least the loop's
termination measure, so running it with the exact measure is just the
loop in kernel-reducible clothing. -/
def searchStackN (key : String) : Nat → List J → List J
  | _, [] => []
  | 0, _ :: _ => []
  | n + 1, .atom _ :: rest => searchStackN key n rest
  | n + 1, .obj es :: rest =>
      dictYields key es ++ searchStackN key n (dictPushes key es ++ rest)
  | n + 1, .arr xs :: rest => searchStackN key n (xs.reverse ++ rest)

mutual

/-- A computable, structurally recursive size of a JSON tree, used as the
fuel bound for `searchStackN`. -/
def jSize : J → Nat
  | .atom _ => 1
  | .obj es => 1 + jSizeEntries es
  | .arr xs => 1 + jSizeElems xs

def jSizeEntries : List (String × J) → Nat
  | [] => 0
  | e :: es => 1 + jSize e.2 + jSizeEntries es

def jSizeElems : List J → Nat
  | [] => 0
  | x :: xs => 1 + jSize x + jSizeElems xs

end

theorem one_le_jSize (a : J) : 1 ≤ jSize a := by
  cases a with
  | atom s => simp [jSize]
  | obj es => simp [jSize]
  | arr xs => simp [jSize]

theorem map_jSize_sum_le (xs : List J) : (xs.map jSize).sum ≤ jSizeElems xs := by
  induction xs with
  | nil => simp [jSizeElems]
  | cons x xs ih =>
    simp only [List.map_cons, List.sum_cons, jSizeElems]
    omega

theorem jSize_dictPushes_le (key : String) (es : List (String × J)) :
    ((dictPushes key es).map jSize).sum ≤ jSizeEntries es := by
  have h : ∀ es' : List (String × J),
      ((es'.filterMap (fun e => if e.1 = key then none else some e.2)).map jSize).sum
        ≤ jSizeEntries es' := by
    intro es'
    induction es' with
    | nil => simp [jSizeEntries]
    | cons a l ih =>
      by_cases h : a.1 = key
      · rw [List.filterMap_cons_none (by simp [h])]
        simp only [jSizeEntries]
        omega
      · rw [List.filterMap_cons_some (b := a.2) (by simp [h])]
        simp only [List.map_cons, List.sum_cons, jSizeEntries]
        omega
  have h2 := h es
  simp only [dictPushes, List.map_reverse, List.sum_reverse]
  omega

theorem searchStackN_eq (key : String) :
    ∀ n stack, (stack.map jSize).sum ≤ n →
      searchStackN key n stack = searchStack key stack := by
  intro n
  induction n with
  | zero =>
    intro stack h
    cases stack with
    | nil => rw [searchStackN, searchStack]
    | cons a rest =>
      exfalso
      have h1 := one_le_jSize a
      simp only [List.map_cons, List.sum_cons] at h
      omega
  | succ n ih =>
    intro stack h
    cases stack with
    | nil => rw [searchStackN, searchStack]
    | cons a rest =>
      cases a with
      | atom s =>
        rw [searchStackN, searchStack]
        apply ih
        simp only [List.map_cons, List.sum_cons, jSize] at h ⊢
        omega
      | obj es =>
        rw [searchStackN, searchStack]
        congr 1
        apply ih
        have h1 := jSize_dictPushes_le key es
        simp only [List.map_cons, List.sum_cons, List.map_append,
          List.sum_append, jSize] at h ⊢
        omega
      | arr xs =>
        rw [searchStackN, searchStack]
        apply ih
        have h1 := map_jSize_sum_le xs
        simp only [List.map_cons, List.sum_cons, List.map_append,
          List.sum_append, List.map_reverse, List.sum_reverse, jSize] at h ⊢
        omega

/-- Embeds `utils.search_dict(partial, search_key)`: the generator's full
output as a list, in yield order.  Computed through the fuelled loop with
the exact termination measure (so concrete instances reduce);
`search_dict_eq_loop` identifies it with the unbounded work-stack loop. -/
def search_dict (tree : J) (search_key : String) : List J :=
  searchStackN search_key (jSize tree) [tree]

theorem search_dict_eq_loop (tree : J) (search_key : String) :
    search_dict tree search_key = searchStack search_key [tree] := by
  rw [search_dict]
  apply searchStackN_eq
  simp

mutual

/-- Modelled from the spec: the values of every mapping entry whose key
equals `key` that is NOT nested inside the value of another entry whose
key also equals `key` (the outermost matches along each path), in document
order. -/
def outerKeyValues (key : String) : J → List J
  | .atom _ => []
  | .obj es => outerEntries key es
  | .arr xs => outerElems key xs
termination_by j => sizeOf j

def outerEntries (key : String) : List (String × J) → List J
  | [] => []
  | e :: es => (if e.1 = key then [e.2] else outerKeyValues key e.2) ++ outerEntries key es
termination_by es => sizeOf es
decreasing_by
  · obtain ⟨x, y⟩ := e; simp only [List.cons.sizeOf_spec, Prod.mk.sizeOf_spec]; omega
  · simp only [List.cons.sizeOf_spec]; omega

def outerElems (key : String) : List J → List J
  | [] => []
  | x :: xs => outerKeyValues key x ++ outerElems key xs
termination_by xs => sizeOf xs

end

mutual

/-- Modelled from the spec: the values of EVERY mapping entry anywhere in
the tree whose key equals `key`, descending also into the values of
matching entries, in document order. -/
def allKeyValues (key : String) : J → List J
  | .atom _ => []
  | .obj es => allEntries key es
  | .arr xs => allElems key xs
termination_by j => sizeOf j

def allEntries (key : String) : List (String × J) → List J
  | [] => []
  | e :: es =>
      (if e.1 = key then [e.2] else []) ++ allKeyValues key e.2 ++ allEntries key es
termination_by es => sizeOf es
decreasing_by
  · obtain ⟨x, y⟩ := e; simp only [List.cons.sizeOf_spec, Prod.mk.sizeOf_spec]; omega
  · simp only [List.cons.sizeOf_spec]; omega

def allElems (key : String) : List J → List J
  | [] => []
  | x :: xs => allKeyValues key x ++ allElems key xs
termination_by xs => sizeOf xs

end

theorem outerElems_eq_flatMap (key : String) (xs : List J) :
    outerElems key xs = xs.flatMap (outerKeyValues key) := by
  induction xs with
  | nil => simp [outerElems]
  | cons x xs ih => simp [outerElems, ih]

theorem flatMap_reverse_perm {α β : Type} (l : List α) (f : α → List β) :
    (l.reverse.flatMap f).Perm (l.flatMap f) := by
  rw [List.flatMap_def, List.flatMap_def]
  exact ((l.reverse_perm).map f).flatten

theorem dict_scan_perm_core (key : String) (es : List (String × J)) :
    (dictYields key es ++
      (es.filterMap (fun e => if e.1 = key then none else some e.2)).flatMap
        (outerKeyValues key)).Perm (outerEntries key es) := by
  induction es with
  | nil => simp [dictYields, outerEntries]
  | cons e es ih =>
    by_cases h : e.1 = key
    · rw [dictYields, List.filterMap_cons_some (b := e.2) (by simp [h]),
        List.filterMap_cons_none (by simp [h])]
      rw [outerEntries, if_pos h]
      exact (List.Perm.cons e.2 ih)
    · rw [dictYields, List.filterMap_cons_none (by simp [h]),
        List.filterMap_cons_some (b := e.2) (by simp [h]), List.flatMap_cons]
      rw [outerEntries, if_neg h]
      have p1 : (dictYields key es ++
          (outerKeyValues key e.2 ++
            (es.filterMap (fun e => if e.1 = key then none else some e.2)).flatMap
              (outerKeyValues key))).Perm
          (outerKeyValues key e.2 ++
            (dictYields key es ++
              (es.filterMap (fun e => if e.1 = key then none else some e.2)).flatMap
                (outerKeyValues key))) := by
        rw [← List.append_assoc, ← List.append_assoc]
        exact List.Perm.append_right _ List.perm_append_comm
      exact p1.trans (List.Perm.append_left _ ih)

theorem dict_scan_perm (key : String) (es : List (String × J)) :
    (dictYields key es ++ (dictPushes key es).flatMap (outerKeyValues key)).Perm
      (outerEntries key es) := by
  have h1 : ((dictPushes key es).flatMap (outerKeyValues key)).Perm
      ((es.filterMap (fun e => if e.1 = key then none else some e.2)).flatMap
        (outerKeyValues key)) := by
    rw [dictPushes]
    exact flatMap_reverse_perm _ _
  exact (List.Perm.append_left _ h1).trans (dict_scan_perm_core key es)

theorem searchStack_perm (key : String) (stack : List J) :
    (searchStack key stack).Perm (stack.flatMap (outerKeyValues key)) := by
  induction stack using searchStack.induct key with
  | case1 => simp [searchStack]
  | case2 s rest ih =>
    rw [searchStack, List.flatMap_cons, outerKeyValues]
    simpa using ih
  | case3 es rest ih =>
    rw [searchStack, List.flatMap_cons, outerKeyValues]
    rw [List.flatMap_append] at ih
    have p1 := List.Perm.append_left (dictYields key es) ih
    rw [← List.append_assoc] at p1
    exact p1.trans (List.Perm.append_right _ (dict_scan_perm key es))
  | case4 xs rest ih =>
    rw [searchStack, List.flatMap_cons, outerKeyValues, outerElems_eq_flatMap]
    rw [List.flatMap_append] at ih
    exact ih.trans (List.Perm.append_right _ (flatMap_reverse_perm xs _))

theorem search_dict_perm (tree : J) (key : String) :
    (search_dict tree key).Perm (outerKeyValues key tree) := by
  have h := searchStack_perm key [tree]
  rw [search_dict_eq_loop]
  simpa using h

theorem outer_subset_all (key : String) : ∀ tree : J,
    outerKeyValues key tree ⊆ allKeyValues key tree := by
  refine outerKeyValues.induct key
    (fun t => outerKeyValues key t ⊆ allKeyValues key t)
    (fun xs => outerElems key xs ⊆ allElems key xs)
    (fun es => outerEntries key es ⊆ allEntries key es)
    ?_ ?_ ?_ ?_ ?_ ?_ ?_
  · intro s; simp [outerKeyValues, allKeyValues]
  · intro es ih; rw [outerKeyValues, allKeyValues]; exact ih
  · intro xs ih; rw [outerKeyValues, allKeyValues]; exact ih
  · simp [outerElems, allElems]
  · intro x xs ih1 ih2
    rw [outerElems, allElems]
    rw [List.append_subset]
    exact ⟨ih1.trans (List.subset_append_left _ _),
      ih2.trans (List.subset_append_right _ _)⟩
  · simp [outerEntries, allEntries]
  · intro e es ih1 ih2
    rw [outerEntries, allEntries]
    by_cases h : e.1 = key
    · rw [if_pos h, if_pos h, List.append_subset]
      refine ⟨List.subset_append_left _ _ |>.trans (List.subset_append_left _ _), ?_⟩
      exact ih2.trans (List.subset_append_right _ _)
    · rw [if_neg h, if_neg h, List.append_subset]
      constructor
      · intro v hv
        have h2 := ih1 h hv
        rw [List.nil_append]
        exact List.mem_append_left _ h2
      · exact ih2.trans (List.subset_append_right _ _)

/-- C2, counterexample: for the tree `{"k": {"k": "x"}}`, `search_dict`
yields only the outer entry's value; the value `"x"` of the mapping entry
with key `"k"` nested inside the value of the outer `"k"` entry is a
`"k"`-keyed entry value of the tree (witnessed by the deep collector) yet
is not yielded, so `search` does not yield the values of EVERY entry whose
key equals `"k"`. -/
theorem claim2_counterexample :
    search_dict (J.obj [("k", J.obj [("k", J.atom "x")])]) "k"
        = [J.obj [("k", J.atom "x")]] ∧
    J.atom "x" ∈ allKeyValues "k" (J.obj [("k", J.obj [("k", J.atom "x")])]) ∧
    J.atom "x" ∉ search_dict (J.obj [("k", J.obj [("k", J.atom "x")])]) "k" := by
  refine ⟨rfl, ?_, ?_⟩
  · simp [allKeyValues, allEntries]
  · have h : search_dict (J.obj [("k", J.obj [("k", J.atom "x")])]) "k"
        = [J.obj [("k", J.atom "x")]] := rfl
    rw [h]
    simp

/-- C2, amended: for every tree T and key K, `search(T, K)` yields exactly
(as a multiset) the values of every mapping entry of T whose key equals K
and that is not nested inside the value of another entry whose key is also
K (matched values are not descended into); and it yields nothing when K
occurs nowhere in T. -/
theorem claim2_amended (tree : J) (key : String) :
    (search_dict tree key).Perm (outerKeyValues key tree) ∧
    (allKeyValues key tree = [] → search_dict tree key = []) := by
  refine ⟨search_dict_perm tree key, ?_⟩
  intro h
  have h1 : outerKeyValues key tree = [] := by
    rw [← List.subset_nil]
    rw [← h]
    exact outer_subset_all key tree
  exact List.Perm.eq_nil (h1 ▸ search_dict_perm tree key)

/-- C2, witness for the amended theorem: evaluated on the tree
`{"a": ["x", {"k": "v"}], "k": "w"}` with key `"k"`, and the
absence clause on the same tree with key `"missing"`. -/
theorem claim2_witness :
    (search_dict (J.obj [("a", J.arr [J.atom "x", J.obj [("k", J.atom "v")]]), ("k", J.atom "w")]) "k").Perm
      (outerKeyValues "k" (J.obj [("a", J.arr [J.atom "x", J.obj [("k", J.atom "v")]]), ("k", J.atom "w")])) ∧
    search_dict (J.obj [("a", J.arr [J.atom "x", J.obj [("k", J.atom "v")]]), ("k", J.atom "w")]) "missing" = [] := by
  constructor
  · exact (claim2_amended _ "k").1
  · exact (claim2_amended _ "missing").2
      (by simp [allKeyValues, allEntries, allElems])

/-! ### The resilient request client (`ajax_request`) -/

/-- Outcome of one attempt of the transport underlying
`YoutubeCommentDownloader.ajax_request`: an HTTP response with a status
code and decoded body, a `requests.exceptions.Timeout`, or any other
exception (carrying its name). -/
inductive Attempt where
  | response (code : Nat) (body : J)
  | timeout
  | exn (name : String)

/-- The observable outcome of `ajax_request`: the returned value (or a
propagated exception name), the number of `time.sleep(sleep)` calls
performed, and the number of attempts (POST calls) made. -/
structure AjaxOutcome where
  result : Except String (Option J)
  sleeps : Nat
  attempts : Nat
deriving Repr

/-- The retry loop of `ajax_request`, from attempt index `i` with `r`
iterations left.  Status 200 returns the body; 403/413 return the empty
document `{}` immediately; only `Timeout` is caught (then falls through,
like any unmatched status code, to `time.sleep`); any other exception
propagates.  When the loop exhausts its iterations the function returns
`None`. -/
def ajaxFrom (transport : Nat → Attempt) (i : Nat) : Nat → AjaxOutcome
  | 0 => ⟨.ok none, 0, 0⟩
  | r + 1 =>
    match transport i with
    | .response c body =>
      if c = 200 then ⟨.ok (some body), 0, 1⟩
      else if c = 403 ∨ c = 413 then ⟨.ok (some (J.obj [])), 0, 1⟩
      else
        let rest := ajaxFrom transport (i + 1) r
        ⟨rest.result, rest.sleeps + 1, rest.attempts + 1⟩
    | .timeout =>
      let rest := ajaxFrom transport (i + 1) r
      ⟨rest.result, rest.sleeps + 1, rest.attempts + 1⟩
    | .exn e => ⟨.error e, 0, 1⟩

/-- Embeds `YoutubeCommentDownloader.ajax_request(endpoint, ytcfg,
retries, sleep, timeout)`, parameterised by the transport's outcome for
each attempt index. -/
def ajax_request (transport : Nat → Attempt) (retries : Nat) : AjaxOutcome :=
  ajaxFrom transport 0 retries

/-- An attempt outcome on which the retry loop neither returns nor raises:
a timeout, or a response whose status is none of 200, 403, 413. -/
def retriedAttempt : Attempt → Prop
  | .response c _ => c ≠ 200 ∧ c ≠ 403 ∧ c ≠ 413
  | .timeout => True
  | .exn _ => False

theorem ajaxFrom_retried (transport : Nat → Attempt) (i r : Nat)
    (h : retriedAttempt (transport i)) :
    ajaxFrom transport i (r + 1) =
      ⟨(ajaxFrom transport (i + 1) r).result,
        (ajaxFrom transport (i + 1) r).sleeps + 1,
        (ajaxFrom transport (i + 1) r).attempts + 1⟩ := by
  rw [ajaxFrom]
  cases ht : transport i with
  | response c body =>
    rw [ht] at h
    obtain ⟨h1, h2, h3⟩ := h
    dsimp only
    rw [if_neg h1, if_neg (by simp [h2, h3])]
  | timeout => rfl
  | exn e => rw [ht] at h; exact absurd h (by simp [retriedAttempt])

theorem ajaxFrom_all_retried (transport : Nat → Attempt) :
    ∀ r i, (∀ j, j < r → retriedAttempt (transport (i + j))) →
      ajaxFrom transport i r = ⟨.ok none, r, r⟩ := by
  intro r
  induction r with
  | zero => intro i _; rfl
  | succ r ih =>
    intro i h
    have h0 : retriedAttempt (transport i) := by
      have := h 0 (Nat.succ_pos r)
      simpa using this
    rw [ajaxFrom_retried transport i r h0]
    have hrest := ih (i + 1) (by
      intro j hj
      have := h (j + 1) (by omega)
      have he : i + (j + 1) = i + 1 + j := by omega
      rwa [he] at this)
    rw [hrest]

/-- C3: if the loop reaches an attempt that receives HTTP 403 (or 413)
— every earlier attempt having been retried — the client returns the
empty document on that very attempt: no further attempts are made and no
sleep is performed after that response (the sleep count equals the number
of earlier, failed attempts). -/
theorem claim3_ajax_403_immediate (transport : Nat → Attempt)
    (retries i : Nat) (body : J)
    (hi : i < retries)
    (h403 : transport i = .response 403 body ∨ transport i = .response 413 body)
    (hbefore : ∀ j, j < i → retriedAttempt (transport j)) :
    ajax_request transport retries = ⟨.ok (some (J.obj [])), i, i + 1⟩ := by
  rw [ajax_request]
  have main : ∀ d i0 r, i0 + d = i → d < r →
      (∀ j, j < d → retriedAttempt (transport (i0 + j))) →
      ajaxFrom transport i0 r = ⟨.ok (some (J.obj [])), d, d + 1⟩ := by
    intro d
    induction d with
    | zero =>
      intro i0 r h0 hr _
      obtain ⟨r', rfl⟩ : ∃ r', r = r' + 1 := ⟨r - 1, by omega⟩
      rw [ajaxFrom]
      rcases h403 with h | h <;> rw [← h0, Nat.add_zero] at h <;> rw [h] <;> simp
    | succ d ihd =>
      intro i0 r h0 hr hjs
      obtain ⟨r', rfl⟩ : ∃ r', r = r' + 1 := ⟨r - 1, by omega⟩
      have h0' : retriedAttempt (transport i0) := by
        have := hjs 0 (Nat.succ_pos d)
        simpa using this
      rw [ajaxFrom_retried transport i0 r' h0']
      have hrest := ihd (i0 + 1) r' (by omega) (by omega) (by
        intro j hj
        have := hjs (j + 1) (by omega)
        have he : i0 + (j + 1) = i0 + 1 + j := by omega
        rwa [he] at this)
      rw [hrest]
  exact main i 0 retries (by omega) hi (by
    intro j hj
    simpa using hbefore j hj)

/-- C3, witness: a transport answering HTTP 403 on the first attempt, with
5 retries configured, yields the empty document immediately with zero
sleeps and a single attempt. -/
theorem claim3_witness :
    ajax_request (fun _ => Attempt.response 403 (J.obj [])) 5
      = ⟨.ok (some (J.obj [])), 0, 1⟩ :=
  claim3_ajax_403_immediate (fun _ => Attempt.response 403 (J.obj [])) 5 0
    (J.obj []) (by omega) (Or.inl rfl) (by omega)

/-- C4, counterexample: a transport raising a non-timeout exception
(`ConnectionError`) on the first attempt.  The claim says such an
exception is implicitly retried within the loop rather than propagating,
which would make 5 attempts and end in the no-result `None`; instead the
exception propagates out of the client on the very first attempt. -/
theorem claim4_counterexample :
    ajax_request (fun _ => Attempt.exn "ConnectionError") 5
        = ⟨.error "ConnectionError", 0, 1⟩ ∧
    (ajax_request (fun _ => Attempt.exn "ConnectionError") 5).result
        ≠ .ok none := by
  constructor
  · rw [ajax_request, ajaxFrom]
  · rw [ajax_request, ajaxFrom]
    simp

/-- C4, amended: any status code other than 200/403/413 and any network
timeout is implicitly retried within the retry loop (with one sleep per
failed attempt), and after exhausting all retries without a 200/403/413
the client returns no result; but any exception other than a timeout
propagates out of the client immediately (only
`requests.exceptions.Timeout` is caught). -/
theorem claim4_amended (transport : Nat → Attempt) (retries : Nat) :
    ((∀ j, j < retries → retriedAttempt (transport j)) →
      ajax_request transport retries = ⟨.ok none, retries, retries⟩) ∧
    (∀ i e, i < retries → (∀ j, j < i → retriedAttempt (transport j)) →
      transport i = .exn e →
      ajax_request transport retries = ⟨.error e, i, i + 1⟩) := by
  constructor
  · intro h
    rw [ajax_request]
    exact ajaxFrom_all_retried transport retries 0 (by intro j hj; simpa using h j hj)
  · intro i e hi hbefore hexn
    rw [ajax_request]
    have main : ∀ d i0 r, i0 + d = i → d < r →
        (∀ j, j < d → retriedAttempt (transport (i0 + j))) →
        ajaxFrom transport i0 r = ⟨.error e, d, d + 1⟩ := by
      intro d
      induction d with
      | zero =>
        intro i0 r h0 hr _
        obtain ⟨r', rfl⟩ : ∃ r', r = r' + 1 := ⟨r - 1, by omega⟩
        rw [ajaxFrom]
        rw [← h0, Nat.add_zero] at hexn
        rw [hexn]
      | succ d ihd =>
        intro i0 r h0 hr hjs
        obtain ⟨r', rfl⟩ : ∃ r', r = r' + 1 := ⟨r - 1, by omega⟩
        have h0' : retriedAttempt (transport i0) := by
          have := hjs 0 (Nat.succ_pos d)
          simpa using this
        rw [ajaxFrom_retried transport i0 r' h0']
        have hrest := ihd (i0 + 1) r' (by omega) (by omega) (by
          intro j hj
          have := hjs (j + 1) (by omega)
          have he : i0 + (j + 1) = i0 + 1 + j := by omega
          rwa [he] at this)
        rw [hrest]
    exact main i 0 retries (by omega) hi (by intro j hj; simpa using hbefore j hj)

/-- C4, witness for the amended theorem: a transport that times out on
attempts 0 and 1 and answers HTTP 500 afterwards is retried to exhaustion
(3 retries, 3 sleeps, no result); a transport that times out once and then
raises `ConnectionError` propagates that exception on attempt 1. -/
theorem claim4_witness :
    ajax_request (fun j => if j ≤ 1 then Attempt.timeout else Attempt.response 500 (J.obj [])) 3
        = ⟨.ok none, 3, 3⟩ ∧
    ajax_request (fun j => if j = 0 then Attempt.timeout else Attempt.exn "ConnectionError") 3
        = ⟨.error "ConnectionError", 1, 2⟩ := by
  constructor
  · exact (claim4_amended _ 3).1 (by
      intro j hj
      interval_cases j <;> simp [retriedAttempt])
  · exact (claim4_amended _ 3).2 1 "ConnectionError" (by omega)
      (by intro j hj; interval_cases j; simp [retriedAttempt]) (by simp)

/-! ### Python primitive operations used by the downloader -/

/-- Python subscript `j[k]` with a string key: `KeyError` when the key is
missing from a dict, `TypeError` when `j` is not a dict. -/
def pySubscript (j : J) (k : String) : Except Err J :=
  match j with
  | .obj es =>
    match es.lookup k with
    | some v => .ok v
    | none => .error .key
  | _ => .error .typ

/-- Python `j.get(k, dflt)`: `AttributeError` when `j` is not a dict. -/
def pyGetMethod (j : J) (k : String) (dflt : J) : Except Err J :=
  match j with
  | .obj es => .ok ((es.lookup k).getD dflt)
  | _ => .error .attr

/-- Substring test over character lists (Python `sub in s` for strings);
written out structurally so concrete instances reduce. -/
def listIsInfix (sub : List Char) : List Char → Bool
  | [] => sub.isEmpty
  | c :: cs => sub.isPrefixOf (c :: cs) || listIsInfix sub cs

/-- Python `s.strip()`: drop leading and trailing whitespace. -/
def pyStrip (s : String) : String :=
  String.mk (((s.data.dropWhile Char.isWhitespace).reverse.dropWhile
    Char.isWhitespace).reverse)

/-- Python `s.startswith(pre)`. -/
def pyStartsWith (s pre : String) : Bool :=
  pre.data.isPrefixOf s.data

/-- Python `s.split('(')[0]`: the characters before the first `(`. -/
def pySplitParen (s : String) : String :=
  String.mk (s.data.takeWhile (fun c => c ≠ '('))

/-- Python membership `k in j`: key membership for a dict, element
equality for a list, substring test for a string. -/
def pyContains (j : J) (k : String) : Bool :=
  match j with
  | .obj es => es.any (fun e => e.1 = k)
  | .arr xs => xs.any (fun x => match x with | .atom s => s = k | _ => false)
  | .atom s => listIsInfix k.data s.data

/-- A value used as a Python dict key must be hashable: scalars are,
dicts and lists raise `TypeError`. -/
def pyHashableKey (j : J) : Except Err String :=
  match j with
  | .atom s => .ok s
  | _ => .error .typ

/-- Python string coercion for attribute access such as `.strip()` or
`.startswith(...)`: non-strings raise `AttributeError`. -/
def pyAsString (j : J) : Except Err String :=
  match j with
  | .atom s => .ok s
  | _ => .error .attr

/-- Python list subscript `l[i]` with an int index: negative indices count
from the end; out-of-range raises `IndexError`. -/
def pyListIndex (l : List J) (i : Int) : Except Err J :=
  let j := if i < 0 then (l.length : Int) + i else i
  if 0 ≤ j ∧ j.toNat < l.length then .ok (l.getD j.toNat (J.obj []))
  else .error .idx

/-! ### Sort and continuation resolution -/

/-- Embeds lines 149-152 of `downloader.get_comments_from_url`:

    if not sort_menu or sort_by >= len(sort_menu):
        raise SortingError(...)
    continuations = [sort_menu[sort_by]['serviceEndpoint']]

returning the single seed continuation token. -/
def resolveSort (sort_menu : List J) (sort_by : Int) : Except Err J :=
  if sort_menu.isEmpty ∨ (sort_menu.length : Int) ≤ sort_by then .error .sorting
  else do
    let item ← pyListIndex sort_menu sort_by
    pySubscript item "serviceEndpoint"

/-- C6: whenever the requested sort index is at least the length of the
discovered sort menu — including every index on an empty menu — sort
resolution raises the sorting error; it never clamps to a valid entry. -/
theorem claim6_sort_out_of_range (sort_menu : List J) (sort_by : Int)
    (h : (sort_menu.length : Int) ≤ sort_by ∨ sort_menu = []) :
    resolveSort sort_menu sort_by = .error .sorting := by
  rw [resolveSort, if_pos]
  rcases h with h | h
  · exact Or.inr h
  · exact Or.inl (by simp [h])

/-- C6, witness: a two-entry menu with requested index 2, and an empty
menu with requested index 0, both fail with the sorting error. -/
theorem claim6_witness :
    resolveSort [J.obj [("serviceEndpoint", J.atom "a")],
      J.obj [("serviceEndpoint", J.atom "b")]] 2 = .error .sorting ∧
    resolveSort [] 0 = .error .sorting := by
  constructor
  · exact claim6_sort_out_of_range _ 2 (Or.inl (by simp))
  · exact claim6_sort_out_of_range _ 0 (Or.inr rfl)

theorem pySubscript_ne_sorting (j : J) (k : String) :
    pySubscript j k ≠ .error .sorting := by
  cases j with
  | atom s => simp [pySubscript]
  | obj es =>
    rw [pySubscript]
    cases es.lookup k <;> simp
  | arr xs => simp [pySubscript]

/-- C9: a negative sort index whose absolute value is below the length of
a non-empty menu passes the bounds check (which only rejects indices
greater than or equal to the menu length), so resolution does not raise
the sorting error and silently selects the menu entry counted from the
end (Python negative indexing: entry `length + sort_by`). -/
theorem claim9_negative_index (sort_menu : List J) (sort_by : Int)
    (hneg : sort_by < 0) (habs : (sort_by.natAbs : Nat) < sort_menu.length) :
    resolveSort sort_menu sort_by
        = pySubscript (sort_menu.getD ((sort_menu.length : Int) + sort_by).toNat (J.obj []))
            "serviceEndpoint" ∧
    resolveSort sort_menu sort_by ≠ .error .sorting := by
  have hlen : 0 < sort_menu.length := by omega
  have hnempty : ¬sort_menu.isEmpty := by
    cases sort_menu
    · simp at hlen
    · simp
  have hidx : (0 : Int) ≤ (sort_menu.length : Int) + sort_by ∧
      ((sort_menu.length : Int) + sort_by).toNat < sort_menu.length := by
    omega
  have hstep : resolveSort sort_menu sort_by
      = pySubscript (sort_menu.getD ((sort_menu.length : Int) + sort_by).toNat (J.obj []))
          "serviceEndpoint" := by
    rw [resolveSort, if_neg (by
      intro hcon
      rcases hcon with hc | hc
      · exact hnempty hc
      · omega)]
    simp only [pyListIndex, if_pos hneg, if_pos hidx]
    rfl
  exact ⟨hstep, hstep ▸ pySubscript_ne_sorting _ _⟩

/-- C9, witness: index -1 on a two-entry menu selects the last entry's
service endpoint and raises nothing. -/
theorem claim9_witness :
    resolveSort [J.obj [("serviceEndpoint", J.atom "popular")],
        J.obj [("serviceEndpoint", J.atom "recent")]] (-1)
      = .ok (J.atom "recent") ∧
    resolveSort [J.obj [("serviceEndpoint", J.atom "popular")],
        J.obj [("serviceEndpoint", J.atom "recent")]] (-1) ≠ .error .sorting := by
  have h := claim9_negative_index
    [J.obj [("serviceEndpoint", J.atom "popular")],
      J.obj [("serviceEndpoint", J.atom "recent")]] (-1) (by omega) (by simp)
  refine ⟨?_, h.2⟩
  rw [h.1]
  simp [pySubscript, List.lookup]

/-! ### Session bootstrap and pre-crawl resolution -/

/-- Python truthiness of `next(generator, None)`: `None` and falsy JSON
values (empty dict/list/string) are falsy. -/
def pyTruthyOpt : Option J → Bool
  | none => false
  | some j => !pyFalsyJ j

/-- Computes `next(search_dict(data, 'sortFilterSubMenuRenderer'), ...).get('subMenuItems', [])`
as a list of menu items.  A non-dict renderer raises `AttributeError` on
`.get`; a `subMenuItems` payload that is not a sequence is coerced to the
empty menu (modelling simplification: the menu is only ever indexed as a
list). -/
def getSubMenuItems (data : J) : Except Err (List J) := do
  let r := ((search_dict data "sortFilterSubMenuRenderer").head?).getD (J.obj [])
  let v ← pyGetMethod r "subMenuItems" (J.arr [])
  match v with
  | .arr xs => pure xs
  | _ => pure []

/-- Embeds lines 121-152 of `downloader.get_comments_from_url` (the phase
between fetching the page and the continuation loop), parameterised by
the result of the two regex extractions over the page body and by the
response the community-post fallback request would get:

* `cfgBlob`  — `json.loads(regex_search(html, YT_CFG_RE, ...))` when the
  `ytcfg.set` marker matched, `none` when it did not (the code then
  parses the default `'{}'` to an empty dict);
* `dataBlob` — likewise for `YT_INITIAL_DATA_RE` (the `ytInitialData`
  initial-state marker);
* `fallbackResp` — what `ajax_request` would return for the community-post
  fallback continuation (`None` or a document).

Returns the seed continuation list (or the raised error) together with
the number of comment (ajax) requests issued during resolution. -/
def bootstrapResolve (cfgBlob dataBlob fallbackResp : Option J)
    (sort_by : Int) : Except Err (List J) × Nat :=
  let ytcfg := cfgBlob.getD (J.obj [])
  if pyFalsyJ ytcfg then (.error .config, 0)
  else
    let data := dataBlob.getD (J.obj [])
    let item_section := (search_dict data "itemSectionRenderer").head?
    let renderer :=
      if pyTruthyOpt item_section then
        (search_dict (item_section.getD (J.obj [])) "continuationItemRenderer").head?
      else none
    if !pyTruthyOpt renderer then (.error .disabled, 0)
    else
      match getSubMenuItems data with
      | .error e => (.error e, 0)
      | .ok sort_menu =>
        if sort_menu.isEmpty then
          let section_list := ((search_dict data "sectionListRenderer").head?).getD (J.obj [])
          let continuations := search_dict section_list "continuationEndpoint"
          if continuations.isEmpty then
            ((resolveSort sort_menu sort_by).map (fun t => [t]), 0)
          else
            let data2 :=
              match fallbackResp with
              | some r => if pyFalsyJ r then J.obj [] else r
              | none => J.obj []
            match getSubMenuItems data2 with
            | .error e => (.error e, 1)
            | .ok m2 => ((resolveSort m2 sort_by).map (fun t => [t]), 1)
        else ((resolveSort sort_menu sort_by).map (fun t => [t]), 0)

/-- C7, counterexample: a page carrying a valid, non-empty configuration
blob but no initial-state (`ytInitialData`) marker.  Bootstrap then parses
the default empty initial state, finds no item-section renderer, and
fails with the comments-disabled error — not with the
configuration-extraction failure the claim names — before any comment
request (0 requests issued). -/
theorem claim7_counterexample :
    bootstrapResolve (some (J.obj [("INNERTUBE_API_KEY", J.atom "key")]))
        none none 1
      = (.error .disabled, 0) ∧
    (Err.disabled ≠ Err.config) := by
  exact ⟨rfl, by simp⟩

/-- C7, amended: when the fetched page's body lacks the initial-state JSON
marker, bootstrap fails before any comment request is attempted — with
the comments-disabled error whenever the configuration blob was extracted
and is non-empty; the configuration-extraction failure is raised (also
before any request) exactly when the configuration blob itself is absent
or empty. -/
theorem claim7_amended (cfgBlob fallbackResp : Option J) (sort_by : Int) :
    (¬pyFalsyJ (cfgBlob.getD (J.obj [])) →
      bootstrapResolve cfgBlob none fallbackResp sort_by = (.error .disabled, 0)) ∧
    (pyFalsyJ (cfgBlob.getD (J.obj [])) →
      ∀ dataBlob, bootstrapResolve cfgBlob dataBlob fallbackResp sort_by
        = (.error .config, 0)) := by
  constructor
  · intro h
    rw [bootstrapResolve.eq_def]
    simp only [Option.getD_none, Bool.not_eq_true] at *
    rw [if_neg (by simp [h])]
    simp [search_dict, searchStackN, jSize, jSizeEntries, jSizeElems,
      dictYields, dictPushes, pyTruthyOpt]
  · intro h dataBlob
    rw [bootstrapResolve.eq_def, if_pos h]

/-- C7, witness for the amended theorem: a concrete page with a config
blob but no initial-state marker fails comments-disabled with zero
requests; a page with neither marker fails with the configuration error
and zero requests. -/
theorem claim7_witness :
    bootstrapResolve (some (J.obj [("A", J.atom "b")])) none none 0
        = (.error .disabled, 0) ∧
    bootstrapResolve none (some (J.obj [("x", J.atom "y")])) none 0
        = (.error .config, 0) := by
  constructor
  · exact (claim7_amended (some (J.obj [("A", J.atom "b")])) none 0).1
      (by simp [pyFalsyJ])
  · exact (claim7_amended none none 0).2 (by simp [pyFalsyJ])
      (some (J.obj [("x", J.atom "y")]))

/-! ### The continuation crawl engine -/

/-- Python dict insertion `d[k] = v`: overwrites in place when the key is
present, appends otherwise (iteration order preserves first insertion). -/
def pyDictInsert (d : List (String × J)) (k : String) (v : J) : List (String × J) :=
  if d.any (fun e => e.1 = k) then d.map (fun e => if e.1 = k then (k, v) else e)
  else d ++ [(k, v)]

/-- Python iteration `for x in j`: list elements, dict keys, string
characters (iterating other scalars, which would raise `TypeError`, is
not exercised by the code). -/
def pyIter : J → List J
  | .arr xs => xs
  | .obj es => es.map (fun e => J.atom e.1)
  | .atom s => s.toList.map (fun c => J.atom (String.mk [c]))

/-- The payment table of one response batch (lines 181-191): keyed by
surface key from `commentSurfaceEntityPayload` entries carrying a
`pdgCommentChip`, then re-keyed to comment ids through the
`commentViewModel` join (entries without a matching view model dropped).
The join is computed only when the first table is non-empty (`if
payments:`). -/
def buildPayments (resp : J) : Except Err (List (String × J)) := do
  let surface_payloads := search_dict resp "commentSurfaceEntityPayload"
  let payments0 ← surface_payloads.foldlM (fun acc payload => do
    if pyContains payload "pdgCommentChip" then
      let keyJ ← pySubscript payload "key"
      let key ← pyHashableKey keyJ
      let value := ((search_dict payload "simpleText").head?).getD (J.atom "")
      pure (pyDictInsert acc key value)
    else pure acc) []
  if payments0.isEmpty then pure payments0
  else do
    let view_models ← (search_dict resp "commentViewModel").mapM
      (fun vm => pySubscript vm "commentViewModel")
    let surface_keys ← view_models.foldlM (fun acc vm => do
      if pyContains vm "commentSurfaceKey" then
        let kJ ← pySubscript vm "commentSurfaceKey"
        let k ← pyHashableKey kJ
        let v ← pySubscript vm "commentId"
        pure (pyDictInsert acc k v)
      else pure acc) []
    payments0.foldlM (fun acc kv => do
      match surface_keys.lookup kv.1 with
      | some cidJ => do
        let cid ← pyHashableKey cidJ
        pure (pyDictInsert acc cid kv.2)
      | none => pure acc) []

/-- The toolbar-state table of one response batch (lines 193-195): every
`engagementToolbarStateEntityPayload` in the response, keyed by its own
`key` field. -/
def buildToolbar (resp : J) : Except Err (List (String × J)) :=
  (search_dict resp "engagementToolbarStateEntityPayload").foldlM
    (fun acc payload => do
      let kJ ← pySubscript payload "key"
      let k ← pyHashableKey kJ
      pure (pyDictInsert acc k payload)) []

/-- The output record (lines 205-226).  `time_parsed` and `paid` are
optional; `votes` is the trimmed like-count string defaulting to "0". -/
structure CommentRecord where
  cid : J
  text : J
  time : J
  author : J
  channel : J
  votes : String
  replies : J
  photo : J
  heart : Bool
  reply : Bool
  time_parsed : Option Int
  paid : Option J
deriving Repr

/-- Emission of one comment record (lines 198-228), in the code's
evaluation order.  `pd` models `dateparser.parse(...).timestamp()`:
`none` both when the parse returns `None` (whose `.timestamp()` raises the
`AttributeError` the code catches) and the parse preprocessing is applied
to the raw string before the call. -/
def emitOne (pd : String → Option Int) (payments toolbar_states : List (String × J))
    (comment : J) : Except Err CommentRecord := do
  let properties ← pySubscript comment "properties"
  let cid ← pySubscript properties "commentId"
  let author ← pySubscript comment "author"
  let toolbar ← pySubscript comment "toolbar"
  let tsKeyJ ← pySubscript properties "toolbarStateKey"
  let tsKey ← pyHashableKey tsKeyJ
  let toolbar_state ← (match toolbar_states.lookup tsKey with
    | some v => pure v
    | none => Except.error Err.key)
  let content ← pySubscript properties "content"
  let text ← pySubscript content "content"
  let timeV ← pySubscript properties "publishedTime"
  let authorName ← pySubscript author "displayName"
  let channel ← pySubscript author "channelId"
  let likeJ ← pySubscript toolbar "likeCountNotliked"
  let likeS ← pyAsString likeJ
  let votes := if pyStrip likeS = "" then "0" else pyStrip likeS
  let repliesV ← pySubscript toolbar "replyCount"
  let photo ← pySubscript author "avatarThumbnailUrl"
  let heartJ ← pyGetMethod toolbar_state "heartState" (J.atom "")
  let heart := (match heartJ with
    | J.atom s => s = "TOOLBAR_HEART_STATE_HEARTED"
    | _ => false)
  let reply := pyContains cid "."
  let time_parsed : Option Int := (match timeV with
    | J.atom s => pd (pyStrip (pySplitParen s))
    | _ => none)
  let paid ← (match cid with
    | J.atom s => pure (payments.lookup s)
    | _ => Except.error Err.typ)
  pure (CommentRecord.mk cid text timeV authorName channel votes repliesV
    photo heart reply time_parsed paid)

/-- The generator's emission of a batch's comment list: records produced
until the first raised error (which aborts with the prefix already
yielded). -/
def emitAll (pd : String → Option Int) (payments toolbar_states : List (String × J)) :
    List J → List CommentRecord × Option Err
  | [] => ([], none)
  | c :: cs =>
    match emitOne pd payments toolbar_states c with
    | .error e => ([], some e)
    | .ok r =>
      let rest := emitAll pd payments toolbar_states cs
      (r :: rest.1, rest.2)

/-- The target ids that make an action's continuation items top-level
"more comments" work (line 172-174). -/
def targetIds : List String :=
  ["comments-section", "engagement-panel-comments-section",
    "shorts-engagement-panel-comments-section"]

/-- Lines 171-179, body of the inner loop for one continuation item:
"more comments" endpoints are inserted at the front of the work list
(`continuations[:0] = ...`), "show more replies" button commands are
appended at the back (`continuations.append(...)`). -/
def processItem (action : J) (conts : List J) (item : J) : Except Err (List J) := do
  let tid ← pySubscript action "targetId"
  let conts1 :=
    if (match tid with | J.atom s => targetIds.contains s | _ => false) then
      search_dict item "continuationEndpoint" ++ conts
    else conts
  let tidS ← pyAsString tid
  if pyStartsWith tidS "comment-replies-item" && pyContains item "continuationItemRenderer" then
    let btn ← (match (search_dict item "buttonRenderer").head? with
      | some b => pure b
      | none => Except.error Err.stop)
    let cmd ← pySubscript btn "command"
    pure (conts1 ++ [cmd])
  else
    pure conts1

/-- Lines 170-179 for one action: iterate
`action.get('continuationItems', [])`. -/
def processAction (conts : List J) (action : J) : Except Err (List J) := do
  let itemsJ ← pyGetMethod action "continuationItems" (J.arr [])
  (pyIter itemsJ).foldlM (processItem action) conts

/-- One iteration body of the continuation loop after a non-falsy response
arrived (lines 162-228): the API error check, continuation discovery, the
payment and toolbar tables, then emission of the batch in reverse
discovery order.  `conts0` is the work list after the pop. -/
def processResponse (pd : String → Option Int) (resp : J) (conts0 : List J) :
    List J × List CommentRecord × Option Err :=
  if pyTruthyOpt (search_dict resp "externalErrorMessage").head? then
    (conts0, [], some .api)
  else
    let actions := search_dict resp "reloadContinuationItemsCommand" ++
      search_dict resp "appendContinuationItemsAction"
    match actions.foldlM processAction conts0 with
    | .error e => (conts0, [], some e)
    | .ok conts1 =>
      match buildPayments resp with
      | .error e => (conts1, [], some e)
      | .ok payments =>
        match buildToolbar resp with
        | .error e => (conts1, [], some e)
        | .ok toolbar_states =>
          let out := emitAll pd payments toolbar_states
            ((search_dict resp "commentEntityPayload").reverse)
          (conts1, out.1, out.2)

/-- The observable state of a (fuel-bounded) run of the continuation
loop: the remaining work list, all records emitted in order, the tokens
popped and issued in order, and the error that aborted the run, if any. -/
structure CrawlState where
  conts : List J
  emitted : List CommentRecord
  trace : List J
  err : Option Err
deriving Repr

/-- The continuation loop of `get_comments_from_url` (lines 155-230),
parameterised by the response each issued token gets (`none` models
`ajax_request` returning `None`) and bounded by `fuel` iterations (the
Python loop is unbounded; every claim is about a finite prefix).
`continuations.pop()` removes the LAST element of the work list. -/
def crawlLoop (respOf : J → Option J) (pd : String → Option Int) :
    Nat → List J → CrawlState
  | 0, conts => ⟨conts, [], [], none⟩
  | fuel + 1, conts =>
    match conts.getLast? with
    | none => ⟨[], [], [], none⟩
    | some tok =>
      let rest := conts.dropLast
      match respOf tok with
      | none => ⟨rest, [], [tok], none⟩
      | some resp =>
        if pyFalsyJ resp then ⟨rest, [], [tok], none⟩
        else
          let step := processResponse pd resp rest
          match step.2.2 with
          | some e => ⟨step.1, step.2.1, [tok], some e⟩
          | none =>
            let nxt := crawlLoop respOf pd fuel step.1
            ⟨nxt.conts, step.2.1 ++ nxt.emitted, tok :: nxt.trace, nxt.err⟩

/-- A time parser that never succeeds (models `dateparser.parse` returning
`None` on every input). -/
def pdNone : String → Option Int := fun _ => none

/-- A truthy response containing no continuations, no error message and no
comment payloads: processing it changes nothing. -/
def inertResp : J := J.obj [("inert", J.atom "1")]

theorem processResponse_inert (pd : String → Option Int) (conts : List J) :
    processResponse pd inertResp conts = (conts, [], none) := by
  simp [processResponse, inertResp, search_dict, searchStackN, jSize,
    jSizeEntries, jSizeElems, dictYields, dictPushes, pyTruthyOpt,
    buildPayments, buildToolbar, emitAll, List.foldlM, pure, Except.pure,
    bind, Except.bind]

theorem pyFalsyJ_inert : pyFalsyJ inertResp = false := rfl

theorem crawlLoop_drain (pd : String → Option Int) :
    ∀ l : List J, crawlLoop (fun _ => some inertResp) pd l.length l
      = ⟨[], [], l.reverse, none⟩ := by
  intro l
  induction l using List.reverseRecOn with
  | nil => rfl
  | append_singleton l a ih =>
    rw [List.length_append, List.length_singleton]
    rw [crawlLoop]
    rw [List.getLast?_concat]
    simp only [List.dropLast_concat, pyFalsyJ_inert, Bool.false_eq_true,
      if_false, processResponse_inert, ih]
    simp [List.reverse_append]

/-- C1, counterexample: one batch whose response carries both a
"more comments" continuation (action target `comments-section`, endpoint
token `C`, front-pushed) and a "more replies" continuation (action target
`comment-replies-item-x`, button command token `R`, back-pushed).  After
the batch the work list is `[C, R]` — both tokens present simultaneously
— and the next iteration pops and issues `R`, the replies token, while
the comments token `C` is still in the stack: `continuations.pop()`
removes the LAST element, so the back-pushed replies token goes first,
contrary to the claim. -/
theorem claim1_counterexample :
    crawlLoop
        (fun t => match t with
          | J.atom "S" => some (J.obj [
              ("reloadContinuationItemsCommand", J.obj [
                ("targetId", J.atom "comments-section"),
                ("continuationItems", J.arr [J.obj [("continuationEndpoint", J.atom "C")]])]),
              ("appendContinuationItemsAction", J.obj [
                ("targetId", J.atom "comment-replies-item-x"),
                ("continuationItems", J.arr [J.obj [
                  ("continuationItemRenderer", J.atom "r"),
                  ("buttonRenderer", J.obj [("command", J.atom "R")])]])])])
          | _ => some inertResp)
        pdNone 1 [J.atom "S"]
      = ⟨[J.atom "C", J.atom "R"], [], [J.atom "S"], none⟩ ∧
    crawlLoop
        (fun t => match t with
          | J.atom "S" => some (J.obj [
              ("reloadContinuationItemsCommand", J.obj [
                ("targetId", J.atom "comments-section"),
                ("continuationItems", J.arr [J.obj [("continuationEndpoint", J.atom "C")]])]),
              ("appendContinuationItemsAction", J.obj [
                ("targetId", J.atom "comment-replies-item-x"),
                ("continuationItems", J.arr [J.obj [
                  ("continuationItemRenderer", J.atom "r"),
                  ("buttonRenderer", J.obj [("command", J.atom "R")])]])])])
          | _ => some inertResp)
        pdNone 2 [J.atom "S"]
      = ⟨[J.atom "C"], [], [J.atom "S", J.atom "R"], none⟩ :=
  ⟨rfl, rfl⟩

/-- C1, amended: the work list pops from its BACK (`continuations.pop()`
takes the last element), while "more comments" tokens are inserted at the
front and "more replies" tokens appended at the back.  Hence the first
token processed is always the last element of the work list, and whenever
the stack simultaneously holds front-pushed "more comments" tokens `cs`
and back-pushed "more replies" tokens `rs`, every "more replies" token is
popped and issued strictly before any "more comments" token: draining
such a stack (against responses that discover nothing new) issues
`rs.reverse ++ cs.reverse`. -/
theorem claim1_amended (pd : String → Option Int) (cs rs : List J) :
    (∀ (respOf : J → Option J) (fuel : Nat) (conts : List J),
      (crawlLoop respOf pd (fuel + 1) conts).trace.head? = conts.getLast?) ∧
    crawlLoop (fun _ => some inertResp) pd (cs ++ rs).length (cs ++ rs)
      = ⟨[], [], rs.reverse ++ cs.reverse, none⟩ := by
  constructor
  · intro respOf fuel conts
    rw [crawlLoop]
    cases h : conts.getLast? with
    | none => rfl
    | some tok =>
      dsimp only
      cases respOf tok with
      | none => rfl
      | some resp =>
        by_cases hf : pyFalsyJ resp
        · simp [hf]
        · simp only [hf, Bool.false_eq_true, if_false]
          cases (processResponse pd resp conts.dropLast).2.2 <;> rfl
  · rw [crawlLoop_drain pd (cs ++ rs), List.reverse_append]

theorem emitAll_forall2 (pd : String → Option Int)
    (pay tb : List (String × J)) : ∀ cs : List J,
    (emitAll pd pay tb cs).2 = none →
    List.Forall₂ (fun c r => emitOne pd pay tb c = .ok r) cs
      (emitAll pd pay tb cs).1 := by
  intro cs
  induction cs with
  | nil => intro _; exact List.Forall₂.nil
  | cons c cs ih =>
    intro h
    rw [emitAll] at h ⊢
    cases he : emitOne pd pay tb c with
    | error e =>
      rw [he] at h
      simp at h
    | ok r =>
      rw [he] at h
      dsimp only at h ⊢
      exact List.Forall₂.cons he (ih h)

/-- C5: whenever a batch is processed without error, the records emitted
for that batch are exactly, in order, the successful emissions of the raw
`commentEntityPayload` entries in the REVERSE of the order in which the
nested-structure search over the response discovers them; and every one
of them — the first included — is produced against the payment table and
the toolbar-state table built from the WHOLE response batch, i.e. the
tables are fully materialised before the first record is emitted. -/
theorem claim5_batch_emission (pd : String → Option Int) (resp : J)
    (conts : List J)
    (h : (processResponse pd resp conts).2.2 = none) :
    ∃ payments toolbar_states,
      buildPayments resp = .ok payments ∧
      buildToolbar resp = .ok toolbar_states ∧
      List.Forall₂ (fun c r => emitOne pd payments toolbar_states c = .ok r)
        ((search_dict resp "commentEntityPayload").reverse)
        (processResponse pd resp conts).2.1 := by
  rw [processResponse] at h ⊢
  by_cases he : pyTruthyOpt (search_dict resp "externalErrorMessage").head? = true
  · rw [if_pos he] at h
    simp at h
  · rw [if_neg he] at h ⊢
    dsimp only at h ⊢
    cases hact : (search_dict resp "reloadContinuationItemsCommand" ++
        search_dict resp "appendContinuationItemsAction").foldlM processAction conts with
    | error e =>
      rw [hact] at h
      simp at h
    | ok conts1 =>
      rw [hact] at h
      dsimp only at h ⊢
      cases hpay : buildPayments resp with
      | error e =>
        rw [hpay] at h
        simp at h
      | ok payments =>
        rw [hpay] at h
        dsimp only at h ⊢
        cases htool : buildToolbar resp with
        | error e =>
          rw [htool] at h
          simp at h
        | ok toolbar_states =>
          rw [htool] at h
          dsimp only at h ⊢
          exact ⟨payments, toolbar_states, rfl, rfl,
            emitAll_forall2 pd payments toolbar_states _ h⟩

/-- A raw comment payload: top-level comment `abc` by Alice, like count
`" 5 "`, published "1 day ago", toolbar-state key `tk`. -/
def c1pay : J := J.obj [
  ("properties", J.obj [
    ("commentId", J.atom "abc"),
    ("content", J.obj [("content", J.atom "hello")]),
    ("publishedTime", J.atom "1 day ago"),
    ("toolbarStateKey", J.atom "tk")]),
  ("author", J.obj [
    ("displayName", J.atom "Alice"),
    ("channelId", J.atom "ch1"),
    ("avatarThumbnailUrl", J.atom "http-a")]),
  ("toolbar", J.obj [
    ("likeCountNotliked", J.atom " 5 "),
    ("replyCount", J.atom "2")])]

/-- A raw comment payload: reply `abc.def` by Bob, blank like count,
published time with a trailing parenthetical, toolbar-state key `tk`. -/
def c2pay : J := J.obj [
  ("properties", J.obj [
    ("commentId", J.atom "abc.def"),
    ("content", J.obj [("content", J.atom "world")]),
    ("publishedTime", J.atom "2 days ago (edited)"),
    ("toolbarStateKey", J.atom "tk")]),
  ("author", J.obj [
    ("displayName", J.atom "Bob"),
    ("channelId", J.atom "ch2"),
    ("avatarThumbnailUrl", J.atom "http-b")]),
  ("toolbar", J.obj [
    ("likeCountNotliked", J.atom "   "),
    ("replyCount", J.atom "0")])]

/-- A toolbar-state payload with key `tk`, hearted. -/
def tpay : J := J.obj [
  ("key", J.atom "tk"),
  ("heartState", J.atom "TOOLBAR_HEART_STATE_HEARTED")]

/-- A response batch with two comment payloads and one toolbar-state
payload referenced by both (the spec's end-to-end scenario). -/
def resp5 : J := J.obj [("frameworkUpdates", J.arr [
  J.obj [("commentEntityPayload", c1pay)],
  J.obj [("commentEntityPayload", c2pay)],
  J.obj [("engagementToolbarStateEntityPayload", tpay)]])]

/-- A time parser that parses exactly "1 day ago". -/
def pd5 : String → Option Int :=
  fun s => if s = "1 day ago" then some 1700000000 else none

/-- C5, witness: on the two-comment batch the hypothesis (no emission
error) holds by evaluation, the theorem applies, and the emitted records
come out as `abc` then `abc.def` — the reverse of the discovery order
`[abc.def's payload, abc's payload]` — with the shared toolbar state
(both hearted) resolved and no `paid` field. -/
theorem claim5_witness :
    (processResponse pd5 resp5 []).2.2 = none ∧
    (∃ payments toolbar_states,
      buildPayments resp5 = .ok payments ∧
      buildToolbar resp5 = .ok toolbar_states ∧
      List.Forall₂ (fun c r => emitOne pd5 payments toolbar_states c = .ok r)
        ((search_dict resp5 "commentEntityPayload").reverse)
        (processResponse pd5 resp5 []).2.1) ∧
    search_dict resp5 "commentEntityPayload" = [c2pay, c1pay] ∧
    (processResponse pd5 resp5 []).2.1.map (fun r => r.cid)
      = [J.atom "abc", J.atom "abc.def"] ∧
    (processResponse pd5 resp5 []).2.1.map (fun r => r.reply) = [false, true] ∧
    (processResponse pd5 resp5 []).2.1.map (fun r => r.heart) = [true, true] ∧
    (processResponse pd5 resp5 []).2.1.map (fun r => r.paid) = [none, none] :=
  ⟨rfl, claim5_batch_emission pd5 resp5 [] rfl, rfl, rfl, rfl, rfl, rfl⟩

/-- C8: the published-time parse can never prevent emission and never
raises out of it.  If a comment payload emits successfully under ANY time
parser, then under a parser that fails on every input (modelling an
unparseable published-time string: `dateparser.parse` returns `None`,
whose `.timestamp()` raises the `AttributeError` the code catches and
ignores) it still emits successfully, with every other field identical
and `time_parsed` simply absent. -/
theorem claim8_time_parse_failure (pd : String → Option Int)
    (pay tb : List (String × J)) (c : J) (r : CommentRecord)
    (h : emitOne pd pay tb c = .ok r) :
    emitOne (fun _ => none) pay tb c = .ok { r with time_parsed := none } := by
  simp only [emitOne, bind, Except.bind, pure, Except.pure] at h ⊢
  repeat' split at h
  all_goals first
  | (simp only [Except.ok.injEq] at h
     subst h
     simp_all)
  | exact absurd h (by simp)

/-- The record `c1pay` emits to when "1 day ago" parses. -/
def rec1 : CommentRecord :=
  ⟨J.atom "abc", J.atom "hello", J.atom "1 day ago", J.atom "Alice",
    J.atom "ch1", "5", J.atom "2", J.atom "http-a", true, false,
    some 1700000000, none⟩

/-- C8, witness: `c1pay` emits with `time_parsed` present under the
parser that accepts "1 day ago"; under the always-failing parser the same
record is emitted with `time_parsed` absent and nothing else changed. -/
theorem claim8_witness :
    emitOne pd5 [] [("tk", tpay)] c1pay = .ok rec1 ∧
    emitOne (fun _ => none) [] [("tk", tpay)] c1pay
      = .ok { rec1 with time_parsed := none } :=
  ⟨rfl, claim8_time_parse_failure pd5 [] [("tk", tpay)] c1pay rec1 rfl⟩

theorem emitOne_key_missing (pd : String → Option Int)
    (pay tb : List (String × J)) (c props cidJ authJ tbJ : J) (k : String)
    (hp : pySubscript c "properties" = .ok props)
    (hc : pySubscript props "commentId" = .ok cidJ)
    (ha : pySubscript c "author" = .ok authJ)
    (ht : pySubscript c "toolbar" = .ok tbJ)
    (hk : pySubscript props "toolbarStateKey" = .ok (J.atom k))
    (hmiss : tb.lookup k = none) :
    emitOne pd pay tb c = .error .key := by
  simp [emitOne, bind, Except.bind, hp, hc, ha, ht, hk, pyHashableKey, hmiss]

/-- C10: a batch whose first comment (in emission order) references a
`toolbarStateKey` that matches no toolbar-state payload in the same batch
makes emission perform an unguarded table lookup that raises `KeyError`:
the batch contributes NO records (the record is neither emitted without
heart state nor skipped) and the crawl aborts mid-stream with the error
after the token's trace entry. -/
theorem claim10_toolbar_keyerror (pd : String → Option Int)
    (resp tok c : J) (cs : List J) (props cidJ authJ tbJ : J) (k : String)
    (conts1 : List J) (payments tstates : List (String × J))
    (hfirst : (search_dict resp "commentEntityPayload").reverse = c :: cs)
    (herr : pyTruthyOpt (search_dict resp "externalErrorMessage").head? = false)
    (hact : (search_dict resp "reloadContinuationItemsCommand" ++
        search_dict resp "appendContinuationItemsAction").foldlM
          processAction [] = .ok conts1)
    (hpay : buildPayments resp = .ok payments)
    (htool : buildToolbar resp = .ok tstates)
    (hp : pySubscript c "properties" = .ok props)
    (hc : pySubscript props "commentId" = .ok cidJ)
    (ha : pySubscript c "author" = .ok authJ)
    (ht : pySubscript c "toolbar" = .ok tbJ)
    (hk : pySubscript props "toolbarStateKey" = .ok (J.atom k))
    (hmiss : tstates.lookup k = none)
    (hfalsy : pyFalsyJ resp = false) :
    processResponse pd resp [] = (conts1, [], some .key) ∧
    crawlLoop (fun _ => some resp) pd 1 [tok]
      = ⟨conts1, [], [tok], some .key⟩ := by
  have hone := emitOne_key_missing pd payments tstates c props cidJ authJ tbJ k
    hp hc ha ht hk hmiss
  have hstep : processResponse pd resp [] = (conts1, [], some .key) := by
    rw [processResponse, if_neg (by rw [herr]; simp)]
    dsimp only
    rw [hact]
    dsimp only
    rw [hpay]
    dsimp only
    rw [htool]
    dsimp only
    rw [hfirst, emitAll, hone]
  refine ⟨hstep, ?_⟩
  rw [crawlLoop]
  simp only [List.getLast?_singleton, List.dropLast_single]
  try dsimp only
  rw [hfalsy]
  simp only [Bool.false_eq_true, if_false]
  rw [hstep]

/-- A toolbar-state payload whose key `other` matches no comment. -/
def tpayX : J := J.obj [
  ("key", J.atom "other"),
  ("heartState", J.atom "TOOLBAR_HEART_STATE_HEARTED")]

/-- A response batch whose only comment references toolbar-state key `tk`
while the only toolbar-state payload has key `other`. -/
def resp10 : J := J.obj [("frameworkUpdates", J.arr [
  J.obj [("commentEntityPayload", c1pay)],
  J.obj [("engagementToolbarStateEntityPayload", tpayX)]])]

/-- C10, witness: on the mismatched batch the crawl emits nothing and
aborts with `KeyError`. -/
theorem claim10_witness :
    processResponse pdNone resp10 [] = ([], [], some .key) ∧
    crawlLoop (fun _ => some resp10) pdNone 1 [J.atom "T"]
      = ⟨[], [], [J.atom "T"], some .key⟩ :=
  claim10_toolbar_keyerror pdNone resp10 (J.atom "T") c1pay []
    (J.obj [
      ("commentId", J.atom "abc"),
      ("content", J.obj [("content", J.atom "hello")]),
      ("publishedTime", J.atom "1 day ago"),
      ("toolbarStateKey", J.atom "tk")])
    (J.atom "abc")
    (J.obj [
      ("displayName", J.atom "Alice"),
      ("channelId", J.atom "ch1"),
      ("avatarThumbnailUrl", J.atom "http-a")])
    (J.obj [
      ("likeCountNotliked", J.atom " 5 "),
      ("replyCount", J.atom "2")])
    "tk" [] [] [("other", tpayX)]
    rfl rfl rfl rfl rfl rfl rfl rfl rfl rfl rfl rfl

end Ycd
